import Mathlib

/-!
Verification development for the form-filler voice agent
(`src/agent/agent.py`).

The file shallowly embeds the state store (`UserData`), the broadcaster
(`send_to_frontend`), the conversational tools (`update_name`,
`update_phone`, `update_email`, `get_name`, `get_phone`, `get_email`,
`submit_form`) and the inbound data listener (`handle_data`).

Conventions of the embedding:
* Python values produced by `json.loads` (and storable in the dataclass
  fields, whose runtime typing is dynamic) are modelled by `PyVal`.
  JSON floats are omitted: no code path of the repository produces or
  inspects one, and floating point is out of scope.
* Effects are made explicit: each tool returns its reply string, the new
  store and the list of data-channel publishes it performed; the listener
  returns the new store, its publishes (always none in the source) and the
  log entries it emitted, modelled structurally by `LogEntry`.
* The decoding pipeline `packet.data.decode("utf-8")` followed by
  `json.loads` is performed by the Python standard library, external to
  this repository; the listener is therefore given its outcome, with
  `Option.none` standing for any exception raised while decoding/parsing.
-/

/-- Model of the Python/JSON values the agent handles.  `vnone` is Python
`None` (JSON `null`); dictionaries are association lists whose keys are
pairwise distinct when produced by `json.loads`. -/
inductive PyVal where
  | vnone : PyVal
  | vbool (b : Bool) : PyVal
  | vint (n : Int) : PyVal
  | vstr (s : String) : PyVal
  | vlist (xs : List PyVal) : PyVal
  | vdict (kvs : List (String × PyVal)) : PyVal

/-- Lookup in a Python dictionary (`dict.get` / `dict.__getitem__`,
returning `Option.none` where Python returns `None` resp. raises
`KeyError` on a missing key). -/
def dictGet : List (String × PyVal) → String → Option PyVal
  | [], _ => Option.none
  | (k, v) :: kvs, key => if k = key then Option.some v else dictGet kvs key

/-- Python `x is None`. -/
def isNone : PyVal → Bool
  | PyVal.vnone => true
  | _ => false

/-- Python equality test `x == lit` between a value retrieved with
`dict.get` and a string literal: true exactly when the value is a string
equal to the literal. -/
def selEq (v : Option PyVal) (lit : String) : Bool :=
  match v with
  | Option.some (PyVal.vstr t) => t == lit
  | _ => false

/-- Lowercase hexadecimal digit, as used by `json.dumps` escapes. -/
def hexChar (n : Nat) : Char :=
  if n < 10 then Char.ofNat (48 + n) else Char.ofNat (87 + n)

/-- Four lowercase hexadecimal digits. -/
def hex4 (n : Nat) : String :=
  String.mk [hexChar (n / 4096 % 16), hexChar (n / 256 % 16),
             hexChar (n / 16 % 16), hexChar (n % 16)]

/-- Escaping of one character in a JSON string literal, following
`json.dumps` with its default `ensure_ascii=True`: the two-character
escapes for quote, backslash and control characters that have them,
`\u00xx` for other control characters, ASCII printable characters
verbatim, and `\uxxxx` (with surrogate pairs beyond the basic plane) for
everything non-ASCII. -/
def jsonEscapeChar (c : Char) : String :=
  if c = '"' then "\\\"" else
  if c = '\\' then "\\\\" else
  if c = '\n' then "\\n" else
  if c = '\r' then "\\r" else
  if c = '\t' then "\\t" else
  if c.toNat = 8 then "\\b" else
  if c.toNat = 12 then "\\f" else
  if 32 ≤ c.toNat ∧ c.toNat ≤ 126 then String.singleton c else
  if c.toNat < 65536 then "\\u" ++ hex4 c.toNat else
  "\\u" ++ hex4 (55296 + (c.toNat - 65536) / 1024) ++
  "\\u" ++ hex4 (56320 + (c.toNat - 65536) % 1024)

/-- A JSON string literal for `s`, as `json.dumps` renders it. -/
def jsonQuote (s : String) : String :=
  "\"" ++ String.join (s.data.map jsonEscapeChar) ++ "\""

mutual

/-- `json.dumps` with its default separators and `ensure_ascii=True`. -/
def dumps : PyVal → String
  | PyVal.vnone => "null"
  | PyVal.vbool true => "true"
  | PyVal.vbool false => "false"
  | PyVal.vint n => toString n
  | PyVal.vstr s => jsonQuote s
  | PyVal.vlist xs => "[" ++ String.intercalate ", " (dumpsList xs) ++ "]"
  | PyVal.vdict kvs => "\x7b" ++ String.intercalate ", " (dumpsPairs kvs) ++ "\x7d"

/-- Serialization of the elements of a JSON array. -/
def dumpsList : List PyVal → List String
  | [] => []
  | x :: xs => dumps x :: dumpsList xs

/-- Serialization of the `"key": value` members of a JSON object. -/
def dumpsPairs : List (String × PyVal) → List String
  | [] => []
  | (k, v) :: kvs => (jsonQuote k ++ ": " ++ dumps v) :: dumpsPairs kvs

end

/-- UTF-8 encoding of one code point, as a list of byte values. -/
def utf8Bytes (n : Nat) : List Nat :=
  if n < 128 then [n]
  else if n < 2048 then [192 + n / 64, 128 + n % 64]
  else if n < 65536 then [224 + n / 4096, 128 + n / 64 % 64, 128 + n % 64]
  else [240 + n / 262144, 128 + n / 4096 % 64, 128 + n / 64 % 64, 128 + n % 64]

/-- `str.encode("utf-8")`: the byte sequence of a string. -/
def strUtf8 (s : String) : List Nat :=
  (s.data.map (fun c => utf8Bytes c.toNat)).flatten

/-- The apostrophe character as a string (used by the Python `repr` of
strings). -/
def aposStr : String := String.singleton (Char.ofNat 39)

/-- Escaping of one character inside a Python single-quoted `repr`
literal (approximation of CPython `repr`, used only in diagnostic
strings). -/
def pyEscapeChar (c : Char) : String :=
  if c = '\\' then "\\\\" else
  if c.toNat = 39 then "\\" ++ aposStr else
  if c = '\n' then "\\n" else
  if c = '\r' then "\\r" else
  if c = '\t' then "\\t" else String.singleton c

/-- Python `repr` of a string (approximation: always single-quoted). -/
def pyStrQuote (s : String) : String :=
  aposStr ++ String.join (s.data.map pyEscapeChar) ++ aposStr

mutual

/-- Python `repr` of a value (approximation for diagnostic strings
only; no claim depends on its exact text). -/
def pyRepr : PyVal → String
  | PyVal.vnone => "None"
  | PyVal.vbool true => "True"
  | PyVal.vbool false => "False"
  | PyVal.vint n => toString n
  | PyVal.vstr s => pyStrQuote s
  | PyVal.vlist xs => "[" ++ String.intercalate ", " (pyReprList xs) ++ "]"
  | PyVal.vdict kvs => "\x7b" ++ String.intercalate ", " (pyReprPairs kvs) ++ "\x7d"

/-- `repr` of the elements of a list. -/
def pyReprList : List PyVal → List String
  | [] => []
  | x :: xs => pyRepr x :: pyReprList xs

/-- `repr` of the members of a dictionary. -/
def pyReprPairs : List (String × PyVal) → List String
  | [] => []
  | (k, v) :: kvs => (pyStrQuote k ++ ": " ++ pyRepr v) :: pyReprPairs kvs

end

/-- Python `str()` as applied inside an f-string. -/
def pyStr : PyVal → String
  | PyVal.vnone => "None"
  | PyVal.vbool true => "True"
  | PyVal.vbool false => "False"
  | PyVal.vint n => toString n
  | PyVal.vstr s => s
  | v => pyRepr v

/-- The `UserData` dataclass.  `ctx` is the opaque `JobContext` handle
(irrelevant to the logic, kept as an abstract identifier so frame
properties about it are statable). -/
structure UserData where
  ctx : Option Nat
  customer_name : PyVal
  customer_phone : PyVal
  customer_email : PyVal
  should_submit : Bool

/-- `UserData(ctx=c)`: all dataclass defaults, as built in `entrypoint`. -/
def initialUserData (c : Option Nat) : UserData :=
  { ctx := c, customer_name := PyVal.vnone, customer_phone := PyVal.vnone,
    customer_email := PyVal.vnone, should_submit := false }

/-- One call to `publish_data` on the room data channel: the byte payload
and the reliability flag passed. -/
structure Publish where
  payload : List Nat
  reliable : Bool

/-- The `metrics` dictionary built by `send_to_frontend`, in insertion
order. -/
def metrics (u : UserData) : List (String × PyVal) :=
  [("customer_name", u.customer_name),
   ("customer_phone", u.customer_phone),
   ("customer_email", u.customer_email),
   ("should_submit", PyVal.vbool u.should_submit)]

/-- `send_to_frontend`: serialize the full state and publish it with
`reliable=False`.  (`ctx` is always set by `entrypoint` before any
call, so the attribute accesses on it succeed.) -/
def send_to_frontend (u : UserData) : Publish :=
  { payload := strUtf8 (dumps (PyVal.vdict (metrics u))), reliable := false }

/-- Result of one conversational tool call: the string returned to the
model, the store afterwards, and the publishes performed. -/
structure ToolResult where
  reply : String
  userdata : UserData
  sent : List Publish

/-- Tool `update_name`. -/
def update_name (name : String) (u : UserData) : ToolResult :=
  let u2 := { u with customer_name := PyVal.vstr name }
  { reply := "The name is updated to " ++ name,
    userdata := u2, sent := [send_to_frontend u2] }

/-- Tool `update_phone`. -/
def update_phone (phone : String) (u : UserData) : ToolResult :=
  let u2 := { u with customer_phone := PyVal.vstr phone }
  { reply := "The phone number is updated to " ++ phone,
    userdata := u2, sent := [send_to_frontend u2] }

/-- Tool `update_email`. -/
def update_email (email : String) (u : UserData) : ToolResult :=
  let u2 := { u with customer_email := PyVal.vstr email }
  { reply := "The email is updated to " ++ email,
    userdata := u2, sent := [send_to_frontend u2] }

/-- Tool `get_name` (read-only). -/
def get_name (u : UserData) : String :=
  "User" ++ aposStr ++ "s name is " ++ pyStr u.customer_name

/-- Tool `get_phone` (read-only). -/
def get_phone (u : UserData) : String :=
  "User" ++ aposStr ++ "s phone number is " ++ pyStr u.customer_phone

/-- Tool `get_email` (read-only). -/
def get_email (u : UserData) : String :=
  "User" ++ aposStr ++ "s email is " ++ pyStr u.customer_email

/-- Tool `submit_form`: early-return prompts for the first missing field
in the order name, phone, email; otherwise set `should_submit`, broadcast
and confirm. -/
def submit_form (u : UserData) : ToolResult :=
  if isNone u.customer_name then
    { reply := "Please provide your name.", userdata := u, sent := [] }
  else if isNone u.customer_phone then
    { reply := "Please provide your phone number.", userdata := u, sent := [] }
  else if isNone u.customer_email then
    { reply := "Please provide your email.", userdata := u, sent := [] }
  else
    let u2 := { u with should_submit := true }
    { reply := "The form is submitted", userdata := u2,
      sent := [send_to_frontend u2] }

/-- Log entries emitted by the listener, modelled structurally (the
textual formatting done by the `logging` library is external). -/
inductive LogEntry where
  | receivedData (obj : PyVal) : LogEntry
  | updatedName (v : PyVal) : LogEntry
  | updatedPhone (v : PyVal) : LogEntry
  | updatedEmail (v : PyVal) : LogEntry
  | unknownField (f : Option PyVal) : LogEntry
  | parseFailure : LogEntry

/-- Whether a log entry is emitted at `error` level. -/
def LogEntry.isError : LogEntry → Bool
  | LogEntry.unknownField _ => true
  | LogEntry.parseFailure => true
  | _ => false

/-- Result of one invocation of the listener: the store afterwards, the
publishes performed, and the log entries emitted in order. -/
structure HandleResult where
  userdata : UserData
  sent : List Publish
  logs : List LogEntry

/-- The `handle_data` callback registered on `data_received`.

The argument `data` is the outcome of `packet.data.decode("utf-8")`
followed by `json.loads` (both external library calls): `Option.none`
models an exception raised there, caught by the surrounding
`try`/`except`, which logs and returns.  On a parsed value the handler
logs it, then the `==` chain on `obj.get("field")` selects a field; a
recognized selector stores `obj["value"]` (a missing `"value"` key
raises `KeyError`, again caught and logged after the first log entry,
before any assignment); any other value — including a non-dictionary
`obj`, whose missing `get` attribute raises — only logs.  The handler
never publishes, so `sent` is `[]` throughout. -/
def handle_data (data : Option PyVal) (u : UserData) : HandleResult :=
  match data with
  | Option.none => { userdata := u, sent := [], logs := [LogEntry.parseFailure] }
  | Option.some obj =>
    match obj with
    | PyVal.vdict kvs =>
      if selEq (dictGet kvs "field") "name" then
        match dictGet kvs "value" with
        | Option.some v =>
          { userdata := { u with customer_name := v }, sent := [],
            logs := [LogEntry.receivedData obj, LogEntry.updatedName v] }
        | Option.none =>
          { userdata := u, sent := [],
            logs := [LogEntry.receivedData obj, LogEntry.parseFailure] }
      else if selEq (dictGet kvs "field") "phone" then
        match dictGet kvs "value" with
        | Option.some v =>
          { userdata := { u with customer_phone := v }, sent := [],
            logs := [LogEntry.receivedData obj, LogEntry.updatedPhone v] }
        | Option.none =>
          { userdata := u, sent := [],
            logs := [LogEntry.receivedData obj, LogEntry.parseFailure] }
      else if selEq (dictGet kvs "field") "email" then
        match dictGet kvs "value" with
        | Option.some v =>
          { userdata := { u with customer_email := v }, sent := [],
            logs := [LogEntry.receivedData obj, LogEntry.updatedEmail v] }
        | Option.none =>
          { userdata := u, sent := [],
            logs := [LogEntry.receivedData obj, LogEntry.parseFailure] }
      else
        { userdata := u, sent := [],
          logs := [LogEntry.receivedData obj,
                   LogEntry.unknownField (dictGet kvs "field")] }
    | _ =>
      { userdata := u, sent := [],
        logs := [LogEntry.receivedData obj, LogEntry.parseFailure] }

/-- The operations that can reach the shared store during a session:
the seven conversational tools and an inbound data packet. -/
inductive Op where
  | updName (s : String) : Op
  | updPhone (s : String) : Op
  | updEmail (s : String) : Op
  | getName : Op
  | getPhone : Op
  | getEmail : Op
  | submitForm : Op
  | inbound (d : Option PyVal) : Op

/-- Effect of one operation on the store. -/
def stepState (u : UserData) : Op → UserData
  | Op.updName s => (update_name s u).userdata
  | Op.updPhone s => (update_phone s u).userdata
  | Op.updEmail s => (update_email s u).userdata
  | Op.getName => u
  | Op.getPhone => u
  | Op.getEmail => u
  | Op.submitForm => (submit_form u).userdata
  | Op.inbound d => (handle_data d u).userdata

/-- Effect of a sequence of operations on the store. -/
def runOps (u : UserData) : List Op → UserData
  | [] => u
  | op :: ops => runOps (stepState u op) ops

/-- Whether an operation is one of the conversational update/read tools. -/
def convOp : Op → Bool
  | Op.updName _ => true
  | Op.updPhone _ => true
  | Op.updEmail _ => true
  | Op.getName => true
  | Op.getPhone => true
  | Op.getEmail => true
  | _ => false

/-- The argument of the last `updName` in the list, if any. -/
def lastUpdName : List Op → Option String
  | [] => Option.none
  | op :: ops =>
    match lastUpdName ops with
    | Option.some s => Option.some s
    | Option.none => match op with
      | Op.updName s => Option.some s
      | _ => Option.none

/-- The argument of the last `updPhone` in the list, if any. -/
def lastUpdPhone : List Op → Option String
  | [] => Option.none
  | op :: ops =>
    match lastUpdPhone ops with
    | Option.some s => Option.some s
    | Option.none => match op with
      | Op.updPhone s => Option.some s
      | _ => Option.none

/-- The argument of the last `updEmail` in the list, if any. -/
def lastUpdEmail : List Op → Option String
  | [] => Option.none
  | op :: ops =>
    match lastUpdEmail ops with
    | Option.some s => Option.some s
    | Option.none => match op with
      | Op.updEmail s => Option.some s
      | _ => Option.none

/-- Whether a value is a JSON string or `null` (the declared type of the
three customer fields). -/
def strOrNull : PyVal → Bool
  | PyVal.vnone => true
  | PyVal.vstr _ => true
  | _ => false

/-- Whether a decoded inbound packet carries one of the three recognized
field selectors. -/
def recognizedSelector : Option PyVal → Bool
  | Option.some (PyVal.vdict kvs) =>
    selEq (dictGet kvs "field") "name" ||
    selEq (dictGet kvs "field") "phone" ||
    selEq (dictGet kvs "field") "email"
  | _ => false

/-- The listener never publishes and never touches `should_submit` or the
context handle, on any decoded input. -/
theorem handle_data_effects (d : Option PyVal) (u : UserData) :
    (handle_data d u).sent = []
    ∧ (handle_data d u).userdata.should_submit = u.should_submit
    ∧ (handle_data d u).userdata.ctx = u.ctx := by
  rcases d with _ | obj
  · exact ⟨rfl, rfl, rfl⟩
  cases obj <;> try exact ⟨rfl, rfl, rfl⟩
  rename_i kvs
  cases h1 : selEq (dictGet kvs "field") "name" with
  | true => cases h2 : dictGet kvs "value" <;> simp [handle_data, h1, h2]
  | false =>
    cases h2 : selEq (dictGet kvs "field") "phone" with
    | true => cases h3 : dictGet kvs "value" <;> simp [handle_data, h1, h2, h3]
    | false =>
      cases h3 : selEq (dictGet kvs "field") "email" with
      | true => cases h4 : dictGet kvs "value" <;> simp [handle_data, h1, h2, h3, h4]
      | false => simp [handle_data, h1, h2, h3]

/-- Operations other than `submitForm` leave the submission flag as it
was. -/
theorem stepState_flag_of_ne (u : UserData) (op : Op)
    (hop : op ≠ Op.submitForm) :
    (stepState u op).should_submit = u.should_submit := by
  cases op <;> try rfl
  · exact absurd rfl hop
  · exact (handle_data_effects _ u).2.1

/-- Once the submission flag is set, no single operation clears it. -/
theorem stepState_flag_mono (u : UserData) (op : Op)
    (h : u.should_submit = true) : (stepState u op).should_submit = true := by
  cases op <;> try exact h
  case submitForm =>
    show (submit_form u).userdata.should_submit = true
    unfold submit_form
    split
    · exact h
    · split
      · exact h
      · split
        · exact h
        · rfl
  case inbound d => exact ((handle_data_effects d u).2.1).trans h

/-- The only operation that raises the submission flag is `submitForm`,
and it does so only when the three fields are set. -/
theorem stepState_flag_new (u : UserData) (op : Op)
    (h0 : u.should_submit = false) (h1 : (stepState u op).should_submit = true) :
    op = Op.submitForm ∧ isNone u.customer_name = false
    ∧ isNone u.customer_phone = false ∧ isNone u.customer_email = false := by
  by_cases hop : op = Op.submitForm
  · subst hop
    have hstep : stepState u Op.submitForm = (submit_form u).userdata := rfl
    rw [hstep] at h1
    cases hn : isNone u.customer_name with
    | true => simp [submit_form, hn, h0] at h1
    | false =>
      cases hp : isNone u.customer_phone with
      | true => simp [submit_form, hn, hp, h0] at h1
      | false =>
        cases he : isNone u.customer_email with
        | true => simp [submit_form, hn, hp, he, h0] at h1
        | false => exact ⟨rfl, rfl, rfl, rfl⟩
  · rw [stepState_flag_of_ne u op hop, h0] at h1
    exact absurd h1 (by simp)

/-- Once the submission flag is set, no sequence of operations clears
it. -/
theorem runOps_flag_mono (ops : List Op) : ∀ u : UserData,
    u.should_submit = true → (runOps u ops).should_submit = true := by
  induction ops with
  | nil => exact fun _ h => h
  | cons op ops ih => exact fun u h => ih _ (stepState_flag_mono u op h)

/-- Last-write-wins for the name field under conversational operations. -/
theorem runOps_name (ops : List Op) : ∀ u : UserData,
    (∀ op ∈ ops, convOp op = true) →
    (runOps u ops).customer_name =
      match lastUpdName ops with
      | Option.some s => PyVal.vstr s
      | Option.none => u.customer_name := by
  induction ops with
  | nil => exact fun _ _ => rfl
  | cons op ops ih =>
    intro u h
    have hop : convOp op = true := h op (List.mem_cons_self op ops)
    have hops : ∀ o ∈ ops, convOp o = true :=
      fun o ho => h o (List.mem_cons_of_mem op ho)
    have hih := ih (stepState u op) hops
    show (runOps (stepState u op) ops).customer_name = _
    rw [hih]
    cases hl : lastUpdName ops with
    | some s => simp [lastUpdName, hl]
    | none =>
      cases op with
      | updName s => simp [lastUpdName, hl, stepState, update_name]
      | updPhone s => simp [lastUpdName, hl, stepState, update_phone]
      | updEmail s => simp [lastUpdName, hl, stepState, update_email]
      | getName => simp [lastUpdName, hl, stepState]
      | getPhone => simp [lastUpdName, hl, stepState]
      | getEmail => simp [lastUpdName, hl, stepState]
      | submitForm => exact absurd hop (by simp [convOp])
      | inbound d => exact absurd hop (by simp [convOp])

/-- Last-write-wins for the phone field under conversational operations. -/
theorem runOps_phone (ops : List Op) : ∀ u : UserData,
    (∀ op ∈ ops, convOp op = true) →
    (runOps u ops).customer_phone =
      match lastUpdPhone ops with
      | Option.some s => PyVal.vstr s
      | Option.none => u.customer_phone := by
  induction ops with
  | nil => exact fun _ _ => rfl
  | cons op ops ih =>
    intro u h
    have hop : convOp op = true := h op (List.mem_cons_self op ops)
    have hops : ∀ o ∈ ops, convOp o = true :=
      fun o ho => h o (List.mem_cons_of_mem op ho)
    have hih := ih (stepState u op) hops
    show (runOps (stepState u op) ops).customer_phone = _
    rw [hih]
    cases hl : lastUpdPhone ops with
    | some s => simp [lastUpdPhone, hl]
    | none =>
      cases op with
      | updName s => simp [lastUpdPhone, hl, stepState, update_name]
      | updPhone s => simp [lastUpdPhone, hl, stepState, update_phone]
      | updEmail s => simp [lastUpdPhone, hl, stepState, update_email]
      | getName => simp [lastUpdPhone, hl, stepState]
      | getPhone => simp [lastUpdPhone, hl, stepState]
      | getEmail => simp [lastUpdPhone, hl, stepState]
      | submitForm => exact absurd hop (by simp [convOp])
      | inbound d => exact absurd hop (by simp [convOp])

/-- Last-write-wins for the email field under conversational operations. -/
theorem runOps_email (ops : List Op) : ∀ u : UserData,
    (∀ op ∈ ops, convOp op = true) →
    (runOps u ops).customer_email =
      match lastUpdEmail ops with
      | Option.some s => PyVal.vstr s
      | Option.none => u.customer_email := by
  induction ops with
  | nil => exact fun _ _ => rfl
  | cons op ops ih =>
    intro u h
    have hop : convOp op = true := h op (List.mem_cons_self op ops)
    have hops : ∀ o ∈ ops, convOp o = true :=
      fun o ho => h o (List.mem_cons_of_mem op ho)
    have hih := ih (stepState u op) hops
    show (runOps (stepState u op) ops).customer_email = _
    rw [hih]
    cases hl : lastUpdEmail ops with
    | some s => simp [lastUpdEmail, hl]
    | none =>
      cases op with
      | updName s => simp [lastUpdEmail, hl, stepState, update_name]
      | updPhone s => simp [lastUpdEmail, hl, stepState, update_phone]
      | updEmail s => simp [lastUpdEmail, hl, stepState, update_email]
      | getName => simp [lastUpdEmail, hl, stepState]
      | getPhone => simp [lastUpdEmail, hl, stepState]
      | getEmail => simp [lastUpdEmail, hl, stepState]
      | submitForm => exact absurd hop (by simp [convOp])
      | inbound d => exact absurd hop (by simp [convOp])

/-- A value retrieved by `dict.get` compares `==`-equal to at most one
string literal. -/
theorem selEq_ne (v : Option PyVal) (a b : String) (hne : a = b → False)
    (h : selEq v a = true) : selEq v b = false := by
  rcases v with _ | pv
  · simp [selEq] at h
  · cases pv <;> simp [selEq] at h ⊢
    intro hb
    exact hne (h.symm.trans hb)

/-- A store with all three fields set and the flag still clear (concrete
instance used by witnesses). -/
def allSetU : UserData :=
  { ctx := Option.none, customer_name := PyVal.vstr "Ada",
    customer_phone := PyVal.vstr "555-1234",
    customer_email := PyVal.vstr "ada@example.com", should_submit := false }

/-- The decoded inbound message from the spec example. -/
def adaPacket : Option PyVal :=
  Option.some (PyVal.vdict
    [("field", PyVal.vstr "name"), ("value", PyVal.vstr "Ada")])

/-- Claim C1, counterexample: on the decoded packet with selector `name`
and value `"Ada"`, starting from the initial store, the listener stores
the new name but performs no publish at all, refuting that it triggers a
broadcast whose snapshot carries the new value. -/
theorem listener_broadcast_cex :
    (handle_data adaPacket (initialUserData Option.none)).userdata.customer_name
      = PyVal.vstr "Ada"
    ∧ (handle_data adaPacket (initialUserData Option.none)).sent = [] :=
  ⟨rfl, rfl⟩

/-- Claim C1 (amended): for every inbound packet that decodes to an
object whose `field` selector is `name` (resp. `phone`, `email`) and
that carries a string value, the listener stores that value in the
corresponding store field, changes nothing else, and triggers no
broadcast. -/
theorem listener_updates_without_broadcast
    (kvs : List (String × PyVal)) (u : UserData) (s : String) :
    (dictGet kvs "field" = Option.some (PyVal.vstr "name") →
      dictGet kvs "value" = Option.some (PyVal.vstr s) →
      (handle_data (Option.some (PyVal.vdict kvs)) u).userdata =
        { u with customer_name := PyVal.vstr s }
      ∧ (handle_data (Option.some (PyVal.vdict kvs)) u).sent = [])
  ∧ (dictGet kvs "field" = Option.some (PyVal.vstr "phone") →
      dictGet kvs "value" = Option.some (PyVal.vstr s) →
      (handle_data (Option.some (PyVal.vdict kvs)) u).userdata =
        { u with customer_phone := PyVal.vstr s }
      ∧ (handle_data (Option.some (PyVal.vdict kvs)) u).sent = [])
  ∧ (dictGet kvs "field" = Option.some (PyVal.vstr "email") →
      dictGet kvs "value" = Option.some (PyVal.vstr s) →
      (handle_data (Option.some (PyVal.vdict kvs)) u).userdata =
        { u with customer_email := PyVal.vstr s }
      ∧ (handle_data (Option.some (PyVal.vdict kvs)) u).sent = []) := by
  refine ⟨fun hf hv => ?_, fun hf hv => ?_, fun hf hv => ?_⟩ <;>
    simp [handle_data, selEq, hf, hv]

/-- Claim C1 (amended), witness at the spec example. -/
theorem listener_updates_without_broadcast_wit :
    (handle_data adaPacket (initialUserData Option.none)).userdata =
      { initialUserData Option.none with customer_name := PyVal.vstr "Ada" }
    ∧ (handle_data adaPacket (initialUserData Option.none)).sent = [] :=
  (listener_updates_without_broadcast
    [("field", PyVal.vstr "name"), ("value", PyVal.vstr "Ada")]
    (initialUserData Option.none) "Ada").1 rfl rfl

/-- Claim C2: `submit_form` succeeds, confirming and raising the flag,
exactly when all three fields are set; otherwise it returns the prompt
for the first missing field in the order name, phone, email, and leaves
the store untouched with no publish. -/
theorem submit_form_priority_spec (u : UserData) :
    (isNone u.customer_name = true →
      submit_form u = ⟨"Please provide your name.", u, []⟩)
  ∧ (isNone u.customer_name = false → isNone u.customer_phone = true →
      submit_form u = ⟨"Please provide your phone number.", u, []⟩)
  ∧ (isNone u.customer_name = false → isNone u.customer_phone = false →
      isNone u.customer_email = true →
      submit_form u = ⟨"Please provide your email.", u, []⟩)
  ∧ (isNone u.customer_name = false → isNone u.customer_phone = false →
      isNone u.customer_email = false →
      submit_form u = ⟨"The form is submitted",
        { u with should_submit := true },
        [send_to_frontend { u with should_submit := true }]⟩) := by
  refine ⟨fun hn => ?_, fun hn hp => ?_, fun hn hp he => ?_,
          fun hn hp he => ?_⟩
  · simp [submit_form, hn]
  · simp [submit_form, hn, hp]
  · simp [submit_form, hn, hp, he]
  · simp [submit_form, hn, hp, he]

/-- Claim C2, witness: missing-name prompt on the fresh store and
success on a fully set store. -/
theorem submit_form_priority_spec_wit :
    submit_form (initialUserData Option.none) =
      ⟨"Please provide your name.", initialUserData Option.none, []⟩
    ∧ submit_form allSetU = ⟨"The form is submitted",
        { allSetU with should_submit := true },
        [send_to_frontend { allSetU with should_submit := true }]⟩ :=
  ⟨(submit_form_priority_spec (initialUserData Option.none)).1 rfl,
   (submit_form_priority_spec allSetU).2.2.2 rfl rfl rfl⟩

/-- Claim C3: the submission flag is clear on the freshly created store,
is raised only by a `submitForm` step that observes all three fields
set, and once raised survives every further sequence of operations. -/
theorem should_submit_lifecycle_spec :
    (∀ c : Option Nat, (initialUserData c).should_submit = false)
  ∧ (∀ (u : UserData) (op : Op), u.should_submit = false →
      (stepState u op).should_submit = true →
      op = Op.submitForm ∧ isNone u.customer_name = false
      ∧ isNone u.customer_phone = false ∧ isNone u.customer_email = false)
  ∧ (∀ (u : UserData) (ops : List Op), u.should_submit = true →
      (runOps u ops).should_submit = true) :=
  ⟨fun _ => rfl, stepState_flag_new,
   fun u ops h => runOps_flag_mono ops u h⟩

/-- Claim C3, witness: a successful submission step on a fully set
store, and persistence of the raised flag across further operations. -/
theorem should_submit_lifecycle_spec_wit :
    (Op.submitForm = Op.submitForm ∧ isNone allSetU.customer_name = false
      ∧ isNone allSetU.customer_phone = false
      ∧ isNone allSetU.customer_email = false)
    ∧ (runOps { allSetU with should_submit := true }
        [Op.getName, Op.updName "Bea", Op.inbound adaPacket]).should_submit
        = true :=
  ⟨should_submit_lifecycle_spec.2.1 allSetU Op.submitForm rfl rfl,
   should_submit_lifecycle_spec.2.2 { allSetU with should_submit := true }
     [Op.getName, Op.updName "Bea", Op.inbound adaPacket] rfl⟩

/-- Claim C4: over any sequence of conversational update and read
operations started on the fresh store, each field ends up holding the
argument of the last update targeting it, and stays unset when never
updated. -/
theorem last_write_wins_spec (ops : List Op)
    (h : ∀ op ∈ ops, convOp op = true) :
    ((runOps (initialUserData Option.none) ops).customer_name =
      match lastUpdName ops with
      | Option.some s => PyVal.vstr s
      | Option.none => PyVal.vnone)
  ∧ ((runOps (initialUserData Option.none) ops).customer_phone =
      match lastUpdPhone ops with
      | Option.some s => PyVal.vstr s
      | Option.none => PyVal.vnone)
  ∧ ((runOps (initialUserData Option.none) ops).customer_email =
      match lastUpdEmail ops with
      | Option.some s => PyVal.vstr s
      | Option.none => PyVal.vnone) :=
  ⟨runOps_name ops (initialUserData Option.none) h,
   runOps_phone ops (initialUserData Option.none) h,
   runOps_email ops (initialUserData Option.none) h⟩

/-- A concrete conversational sequence with an overwritten name and an
untouched email (used by the witness of the last-write-wins claim). -/
def demoOps : List Op :=
  [Op.updName "Ada", Op.getName, Op.updPhone "555-1234",
   Op.updName "Beatrice", Op.getEmail]

/-- Claim C4, witness on a concrete sequence. -/
theorem last_write_wins_spec_wit :
    ((runOps (initialUserData Option.none) demoOps).customer_name =
      match lastUpdName demoOps with
      | Option.some s => PyVal.vstr s
      | Option.none => PyVal.vnone)
  ∧ ((runOps (initialUserData Option.none) demoOps).customer_phone =
      match lastUpdPhone demoOps with
      | Option.some s => PyVal.vstr s
      | Option.none => PyVal.vnone)
  ∧ ((runOps (initialUserData Option.none) demoOps).customer_email =
      match lastUpdEmail demoOps with
      | Option.some s => PyVal.vstr s
      | Option.none => PyVal.vnone) :=
  last_write_wins_spec demoOps (by decide)

/-- Claim C5: each update tool, and a succeeding `submit_form`, performs
exactly one publish, whose payload is the serialization of the full
four-field snapshot of the store as it stands after the mutation. -/
theorem mutation_single_broadcast_spec :
    (∀ (s : String) (u : UserData), (update_name s u).sent =
      [{ payload := strUtf8 (dumps (PyVal.vdict
          (metrics (update_name s u).userdata))), reliable := false }])
  ∧ (∀ (s : String) (u : UserData), (update_phone s u).sent =
      [{ payload := strUtf8 (dumps (PyVal.vdict
          (metrics (update_phone s u).userdata))), reliable := false }])
  ∧ (∀ (s : String) (u : UserData), (update_email s u).sent =
      [{ payload := strUtf8 (dumps (PyVal.vdict
          (metrics (update_email s u).userdata))), reliable := false }])
  ∧ (∀ u : UserData, isNone u.customer_name = false →
      isNone u.customer_phone = false → isNone u.customer_email = false →
      (submit_form u).sent =
      [{ payload := strUtf8 (dumps (PyVal.vdict
          (metrics (submit_form u).userdata))), reliable := false }]) := by
  refine ⟨fun s u => rfl, fun s u => rfl, fun s u => rfl,
          fun u hn hp he => ?_⟩
  simp [submit_form, hn, hp, he, send_to_frontend]

/-- Claim C5, witness: the single publish of a succeeding submission. -/
theorem mutation_single_broadcast_spec_wit :
    (submit_form allSetU).sent =
      [{ payload := strUtf8 (dumps (PyVal.vdict
          (metrics (submit_form allSetU).userdata))), reliable := false }] :=
  mutation_single_broadcast_spec.2.2.2 allSetU rfl rfl rfl

/-- Claim C6: a broadcast is the UTF-8 bytes of the JSON serialization
of an object with exactly the keys `customer_name`, `customer_phone`,
`customer_email`, `should_submit`, in which the first three are bound to
the current store fields (strings or null when the store holds strings
or null) and the last to the boolean submission flag, published with
`reliable=False`. -/
theorem broadcast_payload_shape_spec (u : UserData)
    (hn : strOrNull u.customer_name = true)
    (hp : strOrNull u.customer_phone = true)
    (he : strOrNull u.customer_email = true) :
    send_to_frontend u =
      { payload := strUtf8 (dumps (PyVal.vdict (metrics u))),
        reliable := false }
  ∧ (metrics u).map Prod.fst =
      ["customer_name", "customer_phone", "customer_email", "should_submit"]
  ∧ dictGet (metrics u) "customer_name" = Option.some u.customer_name
  ∧ dictGet (metrics u) "customer_phone" = Option.some u.customer_phone
  ∧ dictGet (metrics u) "customer_email" = Option.some u.customer_email
  ∧ dictGet (metrics u) "should_submit" =
      Option.some (PyVal.vbool u.should_submit)
  ∧ (∀ v, dictGet (metrics u) "customer_name" = Option.some v →
      strOrNull v = true)
  ∧ (∀ v, dictGet (metrics u) "customer_phone" = Option.some v →
      strOrNull v = true)
  ∧ (∀ v, dictGet (metrics u) "customer_email" = Option.some v →
      strOrNull v = true) := by
  refine ⟨rfl, rfl, ?_, ?_, ?_, ?_, ?_, ?_, ?_⟩
  · simp [metrics, dictGet]
  · simp [metrics, dictGet]
  · simp [metrics, dictGet]
  · simp [metrics, dictGet]
  · intro v hv
    simp [metrics, dictGet] at hv
    rw [← hv]; exact hn
  · intro v hv
    simp [metrics, dictGet] at hv
    rw [← hv]; exact hp
  · intro v hv
    simp [metrics, dictGet] at hv
    rw [← hv]; exact he

/-- Claim C6, witness on a concrete store. -/
theorem broadcast_payload_shape_spec_wit :
    send_to_frontend allSetU =
      { payload := strUtf8 (dumps (PyVal.vdict (metrics allSetU))),
        reliable := false } :=
  (broadcast_payload_shape_spec allSetU rfl rfl rfl).1

/-- Claim C7: on any inbound payload that fails to decode, or decodes
to something other than an object carrying one of the three recognized
selectors, the listener leaves the store untouched, publishes nothing,
returns normally, and emits an error-level log entry. -/
theorem listener_discards_bad_packets (d : Option PyVal) (u : UserData)
    (h : recognizedSelector d = false) :
    (handle_data d u).userdata = u
  ∧ (handle_data d u).sent = []
  ∧ (handle_data d u).logs ≠ []
  ∧ ∃ e ∈ (handle_data d u).logs, LogEntry.isError e = true := by
  rcases d with _ | obj
  · exact ⟨rfl, rfl, by simp [handle_data],
      ⟨LogEntry.parseFailure, by simp [handle_data], rfl⟩⟩
  cases obj <;> try exact ⟨rfl, rfl, by simp [handle_data],
      ⟨LogEntry.parseFailure, by simp [handle_data], rfl⟩⟩
  rename_i kvs
  have hor : (selEq (dictGet kvs "field") "name"
      || selEq (dictGet kvs "field") "phone"
      || selEq (dictGet kvs "field") "email") = false := h
  simp only [Bool.or_eq_false_iff] at hor
  obtain ⟨⟨h1, h2⟩, h3⟩ := hor
  refine ⟨?_, ?_, ?_, ?_⟩
  · simp [handle_data, h1, h2, h3]
  · simp [handle_data, h1, h2, h3]
  · simp [handle_data, h1, h2, h3]
  · exact ⟨LogEntry.unknownField (dictGet kvs "field"),
      by simp [handle_data, h1, h2, h3], rfl⟩

/-- The decoded inbound message with an unrecognized selector from the
spec example. -/
def unknownPacket : Option PyVal :=
  Option.some (PyVal.vdict
    [("field", PyVal.vstr "unknown"), ("value", PyVal.vstr "x")])

/-- Claim C7, witness at the unrecognized-selector example. -/
theorem listener_discards_bad_packets_wit :
    (handle_data unknownPacket (initialUserData Option.none)).userdata =
      initialUserData Option.none
    ∧ (handle_data unknownPacket (initialUserData Option.none)).sent = [] :=
  ⟨(listener_discards_bad_packets unknownPacket
      (initialUserData Option.none) rfl).1,
   (listener_discards_bad_packets unknownPacket
      (initialUserData Option.none) rfl).2.1⟩

/-- Claim C8: each update tool stores any string argument verbatim,
including the empty string, and returns the confirmation embedding it;
no input is rejected. -/
theorem update_tools_accept_any_string :
    ∀ (s : String) (u : UserData),
      (update_name s u).userdata = { u with customer_name := PyVal.vstr s }
    ∧ (update_name s u).reply = "The name is updated to " ++ s
    ∧ (update_phone s u).userdata = { u with customer_phone := PyVal.vstr s }
    ∧ (update_phone s u).reply = "The phone number is updated to " ++ s
    ∧ (update_email s u).userdata = { u with customer_email := PyVal.vstr s }
    ∧ (update_email s u).reply = "The email is updated to " ++ s :=
  fun _ _ => ⟨rfl, rfl, rfl, rfl, rfl, rfl⟩

/-- Claim C9: the listener never changes the submission flag or the
session context on any input, and no operation other than `submitForm`
raises the flag. -/
theorem listener_frame_spec :
    (∀ (d : Option PyVal) (u : UserData),
      (handle_data d u).userdata.should_submit = u.should_submit
      ∧ (handle_data d u).userdata.ctx = u.ctx)
  ∧ (∀ (u : UserData) (op : Op), u.should_submit = false →
      (stepState u op).should_submit = true → op = Op.submitForm) :=
  ⟨fun d u => ⟨(handle_data_effects d u).2.1, (handle_data_effects d u).2.2⟩,
   fun u op h0 h1 => (stepState_flag_new u op h0 h1).1⟩

/-- Claim C9, witness. -/
theorem listener_frame_spec_wit :
    ((handle_data adaPacket allSetU).userdata.should_submit =
        allSetU.should_submit
      ∧ (handle_data adaPacket allSetU).userdata.ctx = allSetU.ctx)
    ∧ Op.submitForm = Op.submitForm :=
  ⟨listener_frame_spec.1 adaPacket allSetU,
   listener_frame_spec.2 allSetU Op.submitForm rfl rfl⟩

/-- Claim C10: on an object with a recognized selector but no `value`
key, the lookup raises before any assignment, so the listener returns
with the store fully unchanged, no publish, and only the two log
entries. -/
theorem listener_missing_value_atomic
    (kvs : List (String × PyVal)) (u : UserData)
    (hsel : selEq (dictGet kvs "field") "name" = true
      ∨ selEq (dictGet kvs "field") "phone" = true
      ∨ selEq (dictGet kvs "field") "email" = true)
    (hval : dictGet kvs "value" = Option.none) :
    handle_data (Option.some (PyVal.vdict kvs)) u =
      { userdata := u, sent := [],
        logs := [LogEntry.receivedData (PyVal.vdict kvs),
                 LogEntry.parseFailure] } := by
  rcases hsel with h | h | h
  · simp [handle_data, h, hval]
  · have hn := selEq_ne (dictGet kvs "field") "phone" "name" (by decide) h
    simp [handle_data, hn, h, hval]
  · have hn := selEq_ne (dictGet kvs "field") "email" "name" (by decide) h
    have hp := selEq_ne (dictGet kvs "field") "email" "phone" (by decide) h
    simp [handle_data, hn, hp, h, hval]

/-- The `value`-less pairs used by the witness of the missing-value
claim. -/
def missingValueKvs : List (String × PyVal) := [("field", PyVal.vstr "name")]

/-- Claim C10, witness. -/
theorem listener_missing_value_atomic_wit :
    handle_data (Option.some (PyVal.vdict missingValueKvs))
        (initialUserData Option.none) =
      { userdata := initialUserData Option.none, sent := [],
        logs := [LogEntry.receivedData (PyVal.vdict missingValueKvs),
                 LogEntry.parseFailure] } :=
  listener_missing_value_atomic missingValueKvs
    (initialUserData Option.none) (Or.inl rfl) rfl
